import Mathlib

/-!
Shallow embedding of the deployment reconciliation workflow of the
dbt-api-service-controller repository, together with proofs about the
name-derivation helpers, the create-or-update workflow, the delete
workflow, and the request-schema field synchronisation.

The pure Python helpers of app/api/routes/deployments.py are translated
directly; the external collaborators (a package-manager CLI, a container
orchestrator CLI, the remote workflow-orchestrator HTTP API) are modelled
as explicit environments whose fields describe the outcome of each
external call, and the workflow functions additionally return the trace
of calls they issue.
-/

/-! ## Python string primitives -/

/-- Python `str.lower()` restricted to the ASCII range, applied per
character.  (For any character whose lowercase form is outside
`[a-z0-9-]`/`[a-z0-9_]` the subsequent sanitisation replaces it anyway.) -/
def pyLowerChar (c : Char) : Char :=
  if 'A' ≤ c ∧ c ≤ 'Z' then Char.ofNat (c.toNat + 32) else c

/-- Python `s.lower()`. -/
def pyLower (s : String) : String := ⟨s.data.map pyLowerChar⟩

/-- Python `s[:n]`, the slice of a string up to index `n`, including the
negative-index semantics: a negative `n` counts from the end of the
string, clamped at zero. -/
def pySlice (s : String) (n : Int) : String :=
  if 0 ≤ n then ⟨s.data.take n.toNat⟩
  else ⟨s.data.take (s.length - (-n).toNat)⟩

/-! ## MD5 (hashlib.md5), over UTF-8 bytes, with lowercase hex digest -/

/-- UTF-8 encoding of a single code point (Python `str.encode()`). -/
def utf8EncodeChar (c : Char) : List Nat :=
  let n := c.toNat
  if n < 128 then [n]
  else if n < 2048 then [192 + n / 64, 128 + n % 64]
  else if n < 65536 then [224 + n / 4096, 128 + (n / 64) % 64, 128 + n % 64]
  else [240 + n / 262144, 128 + (n / 4096) % 64, 128 + (n / 64) % 64, 128 + n % 64]

/-- UTF-8 encoding of a string as a list of byte values. -/
def utf8Encode (s : String) : List Nat := (s.data.map utf8EncodeChar).flatten

/-- `2 ^ 32`, the modulus for 32-bit MD5 arithmetic. -/
def m32 : Nat := 4294967296

/-- Left rotation of a 32-bit word. -/
def rotl32 (x s : Nat) : Nat := ((x <<< s) ||| (x >>> (32 - s))) % m32

/-- The 64 MD5 round constants `floor(2^32 * |sin(i+1)|)`. -/
def md5K : List Nat :=
  [3614090360, 3905402710, 606105819, 3250441966, 4118548399, 1200080426,
   2821735955, 4249261313, 1770035416, 2336552879, 4294925233, 2304563134,
   1804603682, 4254626195, 2792965006, 1236535329, 4129170786, 3225465664,
   643717713, 3921069994, 3593408605, 38016083, 3634488961, 3889429448,
   568446438, 3275163606, 4107603335, 1163531501, 2850285829, 4243563512,
   1735328473, 2368359562, 4294588738, 2272392833, 1839030562, 4259657740,
   2763975236, 1272893353, 4139469664, 3200236656, 681279174, 3936430074,
   3572445317, 76029189, 3654602809, 3873151461, 530742520, 3299628645,
   4096336452, 1126891415, 2878612391, 4237533241, 1700485571, 2399980690,
   4293915773, 2240044497, 1873313359, 4264355552, 2734768916, 1309151649,
   4149444226, 3174756917, 718787259, 3951481745]

/-- The 64 MD5 per-round left-rotation amounts. -/
def md5S : List Nat :=
  [7, 12, 17, 22, 7, 12, 17, 22, 7, 12, 17, 22, 7, 12, 17, 22,
   5, 9, 14, 20, 5, 9, 14, 20, 5, 9, 14, 20, 5, 9, 14, 20,
   4, 11, 16, 23, 4, 11, 16, 23, 4, 11, 16, 23, 4, 11, 16, 23,
   6, 10, 15, 21, 6, 10, 15, 21, 6, 10, 15, 21, 6, 10, 15, 21]

/-- The MD5 round function for round `i` (for 32-bit words, the
complement of `x` is `(2^32 - 1) - x`). -/
def md5F (i b c d : Nat) : Nat :=
  if i < 16 then (b &&& c) ||| ((m32 - 1 - b) &&& d)
  else if i < 32 then (d &&& b) ||| ((m32 - 1 - d) &&& c)
  else if i < 48 then b ^^^ c ^^^ d
  else c ^^^ (b ||| (m32 - 1 - d))

/-- The MD5 message-word index for round `i`. -/
def md5G (i : Nat) : Nat :=
  if i < 16 then i
  else if i < 32 then (5 * i + 1) % 16
  else if i < 48 then (3 * i + 5) % 16
  else (7 * i) % 16

/-- One MD5 round applied to the state `(a, b, c, d)`. -/
def md5Step (M : List Nat) (st : Nat × Nat × Nat × Nat) (i : Nat) :
    Nat × Nat × Nat × Nat :=
  let (a, b, c, d) := st
  let f := (md5F i b c d + a + md5K.getD i 0 + M.getD (md5G i) 0) % m32
  (d, (b + rotl32 f (md5S.getD i 0)) % m32, b, c)

/-- Group a byte list into little-endian 32-bit words. -/
def bytesToWords32 : List Nat → List Nat
  | b0 :: b1 :: b2 :: b3 :: rest =>
      (b0 + 256 * b1 + 65536 * b2 + 16777216 * b3) :: bytesToWords32 rest
  | _ => []

/-- Process one 64-byte block, updating the four MD5 state words. -/
def md5Block (st : Nat × Nat × Nat × Nat) (block : List Nat) :
    Nat × Nat × Nat × Nat :=
  let M := bytesToWords32 block
  let (a, b, c, d) := st
  let (a1, b1, c1, d1) := (List.range 64).foldl (md5Step M) (a, b, c, d)
  ((a + a1) % m32, (b + b1) % m32, (c + c1) % m32, (d + d1) % m32)

/-- The `k` least-significant bytes of `n`, little-endian. -/
def toLEBytes : Nat → Nat → List Nat
  | 0, _ => []
  | k + 1, n => n % 256 :: toLEBytes k (n / 256)

/-- MD5 padding: a `0x80` byte, zeros up to 56 mod 64, then the bit
length as a little-endian 64-bit quantity. -/
def md5Pad (msg : List Nat) : List Nat :=
  let len := msg.length
  msg ++ [128] ++ List.replicate ((56 + 64 - (len + 1) % 64) % 64) 0 ++
    toLEBytes 8 ((8 * len) % 18446744073709551616)

/-- Split a byte list into 64-byte chunks (fuel-based structural
recursion so the definition reduces in the kernel). -/
def chunks64Go : Nat → List Nat → List (List Nat)
  | 0, _ => []
  | _, [] => []
  | fuel + 1, l => l.take 64 :: chunks64Go fuel (l.drop 64)

/-- Split a byte list into 64-byte chunks. -/
def chunks64 (l : List Nat) : List (List Nat) := chunks64Go l.length l

/-- The 16-byte MD5 digest of a byte list. -/
def md5Bytes (msg : List Nat) : List Nat :=
  let (a, b, c, d) := (chunks64 (md5Pad msg)).foldl md5Block
    (1732584193, 4023233417, 2562383102, 271733878)
  toLEBytes 4 a ++ toLEBytes 4 b ++ toLEBytes 4 c ++ toLEBytes 4 d

/-- A lowercase hexadecimal digit. -/
def hexChar (n : Nat) : Char :=
  if n < 10 then Char.ofNat (48 + n) else Char.ofNat (87 + n)

/-- Two lowercase hex digits of a byte. -/
def byteToHex (b : Nat) : List Char := [hexChar (b / 16), hexChar (b % 16)]

/-- Python `hashlib.md5(s.encode()).hexdigest()`. -/
def md5Hexdigest (s : String) : String :=
  ⟨((md5Bytes (utf8Encode s)).map byteToHex).flatten⟩

/-! ## Identifier deriver (app/api/routes/deployments.py, lines 36-103) -/

/-- One character of the substitution `re.sub(r'[^a-z0-9-]', '-', s)`. -/
def k8sSubChar (c : Char) : Char :=
  if ('a' ≤ c ∧ c ≤ 'z') ∨ ('0' ≤ c ∧ c ≤ '9') ∨ c = '-' then c else '-'

/-- `re.sub(r'-+', '-', s)` on a character list: collapse runs of `-`. -/
def collapseHyphens : List Char → List Char
  | [] => []
  | [c] => [c]
  | a :: b :: rest =>
      if a = '-' ∧ b = '-' then collapseHyphens (b :: rest)
      else a :: collapseHyphens (b :: rest)

/-- Python `s.strip('-')`: drop leading and trailing hyphens. -/
def stripHyphens (l : List Char) : List Char :=
  ((l.dropWhile (· = '-')).reverse.dropWhile (· = '-')).reverse

/-- `sanitize_k8s_name(value)`: lowercase, replace every character
outside `[a-z0-9-]` with `-`, collapse repeated `-`, strip leading and
trailing `-`. -/
def sanitize_k8s_name (value : String) : String :=
  ⟨stripHyphens (collapseHyphens ((pyLower value).data.map k8sSubChar))⟩

/-- One character of the substitution `re.sub(r'[^a-z0-9_]', '_', s)`. -/
def airflowSubChar (c : Char) : Char :=
  if ('a' ≤ c ∧ c ≤ 'z') ∨ ('0' ≤ c ∧ c ≤ '9') ∨ c = '_' then c else '_'

/-- `re.sub(r'_+', '_', s)` on a character list: collapse runs of `_`. -/
def collapseUnderscores : List Char → List Char
  | [] => []
  | [c] => [c]
  | a :: b :: rest =>
      if a = '_' ∧ b = '_' then collapseUnderscores (b :: rest)
      else a :: collapseUnderscores (b :: rest)

/-- Python `s.strip('_')`: drop leading and trailing underscores. -/
def stripUnderscores (l : List Char) : List Char :=
  ((l.dropWhile (· = '_')).reverse.dropWhile (· = '_')).reverse

/-- `sanitize_airflow_conn_id(value)`: lowercase, replace every character
outside `[a-z0-9_]` with `_`, collapse repeated `_`, strip leading and
trailing `_`, cap the length at 250. -/
def sanitize_airflow_conn_id (value : String) : String :=
  pySlice ⟨stripUnderscores (collapseUnderscores ((pyLower value).data.map airflowSubChar))⟩ 250

/-- `k8s_resource_name(project_name, git_branch)`: sanitise the project
name, append the branch when it is truthy (`None` and `""` are both
falsy in Python), take the first 8 hex characters of the MD5 digest of
that combined string, truncate the sanitised base to `63 - 14 = 49`
characters, and return `"dbt-" + base + "-" + hash`.  (The Python code
reassigns `base`; here the truncated value is named `base2`.) -/
def k8s_resource_name (project_name : String) (git_branch : Option String) : String :=
  let base := sanitize_k8s_name project_name
  let full_name := match git_branch with
    | some b => if b = "" then base else base ++ "-" ++ b
    | none => base
  let name_hash := pySlice (md5Hexdigest full_name) 8
  let base2 := if base.length > 49 then pySlice base 49 else base
  "dbt-" ++ base2 ++ "-" ++ name_hash

/-- `airflow_connection_id(project_name, git_branch)`: delegates to
`k8s_resource_name` so both identifiers always coincide. -/
def airflow_connection_id (project_name : String) (git_branch : Option String) : String :=
  k8s_resource_name project_name git_branch

/-- `get_volume_name(prefix, k8s_name)`: reserve one character for the
separator, truncate `k8s_name` (with Python slice semantics, so the
bound may be negative) when it exceeds the remaining budget, and return
`prefix + "-" + k8s_name`. -/
def get_volume_name (pfx k8s_name : String) : String :=
  let max_k8s_name_length : Int := 63 - (pfx.length : Int) - 1
  let k : String :=
    if (k8s_name.length : Int) > max_k8s_name_length then
      pySlice k8s_name max_k8s_name_length
    else k8s_name
  pfx ++ "-" ++ k

/-! ## External collaborators, modelled as environments

The release tool, the container-orchestrator CLI, and the remote
workflow-orchestrator HTTP API are external processes/services.  Each is
modelled by an environment record whose fields give the outcome of the
corresponding call, exactly at the granularity the Python code consumes
(exit code, stdout, parsed JSON, raised HTTP error). -/

/-- The outcome of a `subprocess.run` invocation as the code consumes
it: exit code and captured output streams. -/
structure SubprocessResult where
  exitCode : Int
  stdout : String
  stderr : String
deriving DecidableEq

/-- One entry of the parsed `helm list --output json` document; only
the `name` key is consumed by the embedded operations. -/
structure HelmRelease where
  name : String
deriving DecidableEq

/-- Outcomes of the external helm calls used by the deployment routes.
`listReleases ns = none` models a failing or unparseable
`helm list -n ns` (non-zero exit or a raised exception). -/
structure HelmEnv where
  listReleases : String → Option (List HelmRelease)
  helmStatus : String → String → SubprocessResult

/-- `get_helm_releases(namespace)`: parse `helm list -n namespace`;
on tool failure (or exception) log and return the empty list. -/
def get_helm_releases (env : HelmEnv) (ns : String) : List HelmRelease :=
  match env.listReleases ns with
  | none => []
  | some rs => rs

/-- `get_helm_status(release_name, namespace)`: return Python `None`
(embedded as `Option.none`) when the release is absent from the release
listing; otherwise run `helm status` and return `None` on a non-zero
exit, else the captured stdout. -/
def get_helm_status (env : HelmEnv) (release_name ns : String) : Option String :=
  let releases := get_helm_releases env ns
  if releases.any (fun r => r.name = release_name) then
    let result := env.helmStatus release_name ns
    if result.exitCode ≠ 0 then none else some result.stdout
  else none

/-- The outcome of one call against the remote workflow-orchestrator
(Airflow) HTTP API: success, a raised `requests.exceptions.HTTPError`
carrying the response status code, or any other raised exception. -/
inductive AirflowCallResult where
  | ok
  | httpError (statusCode : Nat) (msg : String)
  | otherError (msg : String)
deriving DecidableEq

/-! ## Create-or-update workflow (deploy_dbt_server, lines 241-373) -/

/-- The fields of the validated deployment request consumed by
`deploy_dbt_server` (the remaining schema fields only flow into the
rendered values document, which the verified claims do not inspect). -/
structure DeployRequest where
  project_name : String
  ns : String
  customer : String
  domain : String
  git_branch : Option String
  https_enabled : Bool
deriving DecidableEq

/-- Outcomes of the external calls issued by `deploy_dbt_server`:
`renderError` models an exception raised while rendering the values
file, `repoSetupError` a `CalledProcessError` from the helm repo
add/update pair, `upgrade` the `helm upgrade -i` result, and the three
Airflow fields the connection calls. -/
structure DeployEnv where
  helm : HelmEnv
  renderError : Option String
  repoSetupError : Option String
  upgrade : SubprocessResult
  getConn : AirflowCallResult
  updateConn : AirflowCallResult
  createConn : AirflowCallResult

/-- The `airflow_connection` object of a successful response. -/
structure AirflowConnInfo where
  id : String
  host : String
  status : String
deriving DecidableEq

/-- The observable response of the create-or-update endpoint: overall
status string, HTTP code, message, the helm status detail and the
airflow connection detail of the success payload (absent on the error
paths, whose details carry only the error text). -/
structure DeployResponse where
  status : String
  httpCode : Nat
  message : String
  helm_status : Option String
  airflow_connection : Option AirflowConnInfo
deriving DecidableEq

/-- The externally visible calls issued by the create-or-update
workflow, in order. -/
inductive DeployCall where
  | helmRepoSetup
  | helmUpgrade (release ns : String)
  | airflowGet (id : String)
  | airflowUpdate (id host : String)
  | airflowCreate (id host : String)
deriving DecidableEq

/-- The result of the Airflow connection phase of `deploy_dbt_server`
(lines 307-348): try `get_connection` then `update_connection`; an HTTP
404 from either falls into the create path; any other HTTP error or
exception sets the sub-status to `error` and then re-raises, so it
escapes to the outer handler (`Except.error`). -/
def deployConnResult (env : DeployEnv) : Except String String :=
  let createPath : Except String String :=
    match env.createConn with
    | .ok => .ok "created"
    | .httpError _ m => .error m
    | .otherError m => .error m
  match env.getConn with
  | .ok =>
    match env.updateConn with
    | .ok => .ok "updated"
    | .httpError code m => if code = 404 then createPath else .error m
    | .otherError m => .error m
  | .httpError code m => if code = 404 then createPath else .error m
  | .otherError m => .error m

/-- The Airflow calls issued by the connection phase of
`deploy_dbt_server`, in order. -/
def deployConnCalls (env : DeployEnv) (airflow_id host : String) : List DeployCall :=
  match env.getConn with
  | .ok =>
    match env.updateConn with
    | .ok => [.airflowGet airflow_id, .airflowUpdate airflow_id host]
    | .httpError code _ =>
      if code = 404 then
        [.airflowGet airflow_id, .airflowUpdate airflow_id host, .airflowCreate airflow_id host]
      else [.airflowGet airflow_id, .airflowUpdate airflow_id host]
    | .otherError _ => [.airflowGet airflow_id, .airflowUpdate airflow_id host]
  | .httpError code _ =>
    if code = 404 then [.airflowGet airflow_id, .airflowCreate airflow_id host]
    else [.airflowGet airflow_id]
  | .otherError _ => [.airflowGet airflow_id]

/-- `deploy_dbt_server(json_data)`: derive the canonical name, render
the values file, set up the helm repository, apply the release, compute
the endpoint, reconcile the Airflow connection, and report.  Failures
at render/repo-setup/apply return an error response; a re-raised
connection error reaches the outer `except` and also returns an error
response with HTTP 500. -/
def deploy_dbt_server (env : DeployEnv) (req : DeployRequest) :
    DeployResponse × List DeployCall :=
  let k8s_name := k8s_resource_name req.project_name req.git_branch
  let release_name := k8s_name
  let airflow_id := k8s_name
  match env.renderError with
  | some e =>
    ({ status := "error", httpCode := 500, message := e,
       helm_status := none, airflow_connection := none }, [])
  | none =>
  match env.repoSetupError with
  | some _ =>
    ({ status := "error", httpCode := 500, message := "Failed to setup Helm repository",
       helm_status := none, airflow_connection := none }, [.helmRepoSetup])
  | none =>
  if env.upgrade.exitCode ≠ 0 then
    ({ status := "error", httpCode := 500, message := "Failed to deploy application",
       helm_status := none, airflow_connection := none },
     [.helmRepoSetup, .helmUpgrade release_name req.ns])
  else
    let host :=
      if req.https_enabled then
        "https://dbt-server-" ++ k8s_name ++ "." ++ req.customer ++ "." ++ req.domain ++
          "/invocations"
      else
        "http://dbt-server-" ++ k8s_name ++ "." ++ req.ns ++ ".svc.cluster.local/invocations"
    let trace := [DeployCall.helmRepoSetup, .helmUpgrade release_name req.ns] ++
      deployConnCalls env airflow_id host
    match deployConnResult env with
    | .error msg =>
      ({ status := "error", httpCode := 500, message := msg,
         helm_status := none, airflow_connection := none }, trace)
    | .ok connStatus =>
      ({ status := "success", httpCode := 200,
         message := "Deployment " ++ release_name ++ " created/updated successfully",
         helm_status := get_helm_status env.helm release_name req.ns,
         airflow_connection := some { id := airflow_id, host := host, status := connStatus } },
       trace)

/-! ## Delete workflow (delete_deployment, lines 408-499) -/

/-- Outcomes of the external calls issued by `delete_deployment`:
`uninstall` is the `helm uninstall` result, `pvcList` the parsed output
of `kubectl get pvc` (`none` models a non-zero exit), `pvcDelete` the
exit code of `kubectl delete pvc` per claim name, and the two Airflow
fields the connection lookup and deletion. -/
structure DeleteEnv where
  helm : HelmEnv
  uninstall : SubprocessResult
  pvcList : Option (List String)
  pvcDelete : String → Int
  getConn : AirflowCallResult
  deleteConn : AirflowCallResult

/-- The externally visible calls issued by the delete workflow, in
order.  The helm/kubectl calls carry the namespace they are issued
against; the Airflow calls have no namespace. -/
inductive DeleteCall where
  | helmList (ns : String)
  | helmUninstall (release ns : String)
  | kubectlGetPvc (ns : String)
  | kubectlDeletePvc (pvc ns : String)
  | airflowGetConn (id : String)
  | airflowDeleteConn (id : String)
deriving DecidableEq

/-- The observable response of the delete endpoint. -/
structure DeleteResponse where
  status : String
  httpCode : Nat
  message : String
  pvc_deleted : List String
  airflow_status : Option String
  airflow_error : Option String
deriving DecidableEq

/-- The reported sub-status and error message of the Airflow
connection-deletion phase of `delete_deployment` (lines 461-478):
`get_connection` then `delete_connection`; a 404 from either yields
sub-status `not_found`, any other HTTP error or exception yields
`error` with the message attached; nothing is re-raised. -/
def deleteConnOutcome (env : DeleteEnv) : String × Option String :=
  match env.getConn with
  | .ok =>
    match env.deleteConn with
    | .ok => ("deleted", none)
    | .httpError code m =>
      if code = 404 then ("not_found", none) else ("error", some m)
    | .otherError m => ("error", some m)
  | .httpError code m =>
    if code = 404 then ("not_found", none) else ("error", some m)
  | .otherError m => ("error", some m)

/-- The Airflow calls issued by the connection-deletion phase of
`delete_deployment`, in order. -/
def deleteConnCalls (env : DeleteEnv) (k8s_name : String) : List DeleteCall :=
  match env.getConn with
  | .ok => [.airflowGetConn k8s_name, .airflowDeleteConn k8s_name]
  | .httpError _ _ => [.airflowGetConn k8s_name]
  | .otherError _ => [.airflowGetConn k8s_name]

/-- `delete_deployment(deployment_id)`: the namespace is the fixed
string `"dbt-server"`; list the releases there, return 404 when the
identifier is absent, otherwise uninstall, best-effort delete the
dependent volume claims whose names start with the computed prefix, and
delete the Airflow connection (failure reported but non-fatal). -/
def delete_deployment (env : DeleteEnv) (deployment_id : String) :
    DeleteResponse × List DeleteCall :=
  let k8s_name := deployment_id
  let ns := "dbt-server"
  let releases := get_helm_releases env.helm ns
  if ¬ releases.any (fun r => r.name = k8s_name) then
    ({ status := "error", httpCode := 404,
       message := "Deployment " ++ k8s_name ++ " not found in namespace " ++ ns,
       pvc_deleted := [], airflow_status := none, airflow_error := none },
     [.helmList ns])
  else if env.uninstall.exitCode ≠ 0 then
    ({ status := "error", httpCode := 500, message := "Failed to delete deployment",
       pvc_deleted := [], airflow_status := none, airflow_error := none },
     [.helmList ns, .helmUninstall k8s_name ns])
  else
    let pvcPfx := "dbt-server-" ++ k8s_name ++ "-dbt-server-" ++ k8s_name ++ "-"
    let pvcRes : List String × List DeleteCall :=
      match env.pvcList with
      | none => ([], [DeleteCall.kubectlGetPvc ns])
      | some pvcs =>
        let matching := pvcs.filter (fun p => pvcPfx.isPrefixOf p)
        ((matching.filter (fun p => env.pvcDelete p = 0)),
         DeleteCall.kubectlGetPvc ns :: matching.map (fun p => DeleteCall.kubectlDeletePvc p ns))
    let air := deleteConnOutcome env
    ({ status := "success", httpCode := 200,
       message := "Deployment " ++ k8s_name ++ " and associated resources deleted successfully",
       pvc_deleted := pvcRes.1, airflow_status := some air.1, airflow_error := air.2 },
     [DeleteCall.helmList ns, .helmUninstall k8s_name ns] ++ pvcRes.2 ++ deleteConnCalls env k8s_name)

/-- The namespace a delete-workflow call is issued against (`none` for
the Airflow calls, which address the remote orchestrator, not the
cluster). -/
def deleteCallNamespace : DeleteCall → Option String
  | .helmList ns => some ns
  | .helmUninstall _ ns => some ns
  | .kubectlGetPvc ns => some ns
  | .kubectlDeletePvc _ ns => some ns
  | .airflowGetConn _ => none
  | .airflowDeleteConn _ => none

/-- Whether a delete-workflow call mutates cluster state (uninstall or
volume deletion). -/
def isMutationCall : DeleteCall → Bool
  | .helmUninstall _ _ => true
  | .kubectlDeletePvc _ _ => true
  | _ => false

/-- Whether a delete-workflow call deletes a remote connection. -/
def isConnDeleteCall : DeleteCall → Bool
  | .airflowDeleteConn _ => true
  | _ => false

/-! ## Request schema field synchronisation
(app/api/schemas/deployment.py, lines 410-426) -/

/-- The two data-warehouse fields of an inbound request body; `none`
models an omitted field. -/
structure DwInput where
  data_warehouse_platform : Option String
  datawarehouse_type : Option String
deriving DecidableEq

/-- The two data-warehouse fields of the loaded (validated) request. -/
structure DwLoaded where
  data_warehouse_platform : String
  datawarehouse_type : String
deriving DecidableEq

/-- Python truthiness of a string. -/
def pyTruthy (s : String) : Bool := s ≠ ""

/-- Look up a key in an association-list model of a Python dict. -/
def dictGet (d : List (String × String)) (k : String) : Option String :=
  (d.find? (fun e => e.1 = k)).map (fun e => e.2)

/-- Set a key in an association-list model of a Python dict. -/
def dictSet (d : List (String × String)) (k v : String) : List (String × String) :=
  if (d.find? (fun e => e.1 = k)).isSome then
    d.map (fun e => if e.1 = k then (k, v) else e)
  else d ++ [(k, v)]

/-- The `@validates('data_warehouse_platform')` hook
`sync_data_warehouse_fields(self, value)`: when the value is truthy it
reads `self.context.get('data', {})` and back-fills
`datawarehouse_type` in *that* dict when falsy there.  The schema's
context is modelled as `Option`-wrapped `data` entry: when the context
has no `data` key (`none`), `.get('data', {})` produces a fresh dict
whose mutation is discarded, so the context is returned unchanged. -/
def sync_data_warehouse_fields (ctxData : Option (List (String × String)))
    (value : String) : Option (List (String × String)) :=
  if pyTruthy value then
    match ctxData with
    | some d =>
      if (dictGet d "datawarehouse_type").getD "" = "" then
        some (dictSet d "datawarehouse_type" value)
      else some d
    | none => none
  else ctxData

/-- The `@validates('datawarehouse_type')` hook
`sync_datawarehouse_fields(self, value)`, symmetric to
`sync_data_warehouse_fields`. -/
def sync_datawarehouse_fields (ctxData : Option (List (String × String)))
    (value : String) : Option (List (String × String)) :=
  if pyTruthy value then
    match ctxData with
    | some d =>
      if (dictGet d "data_warehouse_platform").getD "" = "" then
        some (dictSet d "data_warehouse_platform" value)
      else some d
    | none => none
  else ctxData

/-- `DeploymentCreateSchema().load(data)` restricted to the two
data-warehouse fields: each missing field receives its `load_default`
of `""`; the two `@validates` hooks then run against the schema
context.  The routes construct the schema with no context, so the
context's `data` entry is `none`.  The hooks' return values are ignored
by marshmallow — the loaded fields are exactly the (defaulted) inputs.
Returns the loaded fields together with the final context `data`
entry. -/
def load_dw_fields (inp : DwInput) : DwLoaded × Option (List (String × String)) :=
  let p := inp.data_warehouse_platform.getD ""
  let t := inp.datawarehouse_type.getD ""
  let ctx0 : Option (List (String × String)) := none
  let ctx1 := sync_data_warehouse_fields ctx0 p
  let ctx2 := sync_datawarehouse_fields ctx1 t
  ({ data_warehouse_platform := p, datawarehouse_type := t }, ctx2)

/-! ## Concrete environments, requests, and patterns used in the proofs -/

/-- A lowercase hexadecimal digit, as in the `[0-9a-f]` character
class. -/
def isLowerHexDigit (c : Char) : Bool :=
  (('0' ≤ c) && (c ≤ '9')) || (('a' ≤ c) && (c ≤ 'f'))

/-- The regular expression `dbt-fastbi-demo-[0-9a-f]{8}` as a whole-string
match. -/
def matchesDbtFastbiDemoPattern (s : String) : Bool :=
  (s.data.take 16 == "dbt-fastbi-demo-".data) &&
  ((s.data.drop 16).length == 8) &&
  (s.data.drop 16).all isLowerHexDigit

/-- A 63-character prefix, exceeding the budget `get_volume_name`
assumes. -/
def longPfx : String := String.mk (List.replicate 63 'a')

/-- A helm environment whose listing is empty. -/
def envHelmAbsent : HelmEnv :=
  { listReleases := fun _ => some [],
    helmStatus := fun _ _ => { exitCode := 0, stdout := "", stderr := "" } }

/-- A helm environment where the release is listed but `helm status`
exits non-zero. -/
def envHelmErr : HelmEnv :=
  { listReleases := fun _ => some [{ name := "dbt-x" }],
    helmStatus := fun _ _ => { exitCode := 1, stdout := "", stderr := "boom" } }

/-- A helm environment where the release is listed and `helm status`
succeeds. -/
def envHelmOk : HelmEnv :=
  { listReleases := fun _ => some [{ name := "dbt-x" }],
    helmStatus := fun _ _ => { exitCode := 0, stdout := "STATUS: deployed", stderr := "" } }

/-- A delete environment whose dbt-server listing is empty. -/
def envDelAbsent : DeleteEnv :=
  { helm := { listReleases := fun _ => some [],
              helmStatus := fun _ _ => { exitCode := 0, stdout := "", stderr := "" } },
    uninstall := { exitCode := 0, stdout := "", stderr := "" },
    pvcList := some [], pvcDelete := fun _ => 0,
    getConn := .ok, deleteConn := .ok }

/-- A delete environment where the release exists only in namespace
"other-ns", not in "dbt-server". -/
def envDelOtherNs : DeleteEnv :=
  { helm := { listReleases := fun ns =>
                if ns = "other-ns" then some [{ name := "dbt-foo" }] else some [],
              helmStatus := fun _ _ => { exitCode := 0, stdout := "", stderr := "" } },
    uninstall := { exitCode := 0, stdout := "", stderr := "" },
    pvcList := some [], pvcDelete := fun _ => 0,
    getConn := .ok, deleteConn := .ok }

/-- A deployment request mirroring the spec scenario. -/
def reqDemo : DeployRequest :=
  { project_name := "Fastbi Demo!", ns := "dbt-server", customer := "fastbi",
    domain := "fast.bi", git_branch := some "main", https_enabled := false }

/-- A deploy environment where rendering, repo setup and the release
apply all succeed but the connection lookup raises a non-404 HTTP
error. -/
def envConnError : DeployEnv :=
  { helm := { listReleases := fun _ => some [],
              helmStatus := fun _ _ => { exitCode := 0, stdout := "", stderr := "" } },
    renderError := none, repoSetupError := none,
    upgrade := { exitCode := 0, stdout := "", stderr := "" },
    getConn := .httpError 500 "500 Server Error: INTERNAL SERVER ERROR",
    updateConn := .ok, createConn := .ok }

/-- A deploy environment where every step succeeds (the connection
already exists and is updated). -/
def envAllOk : DeployEnv :=
  { helm := { listReleases := fun _ => some [{ name := "dbt-fastbi-demo-98d66ba2" }],
              helmStatus := fun _ _ =>
                { exitCode := 0, stdout := "STATUS: deployed", stderr := "" } },
    renderError := none, repoSetupError := none,
    upgrade := { exitCode := 0, stdout := "", stderr := "" },
    getConn := .ok, updateConn := .ok, createConn := .ok }

/-! ## Helper lemmas -/

/-! ## Validation of the embedded library functions against known values -/

lemma md5_check_empty : md5Hexdigest "" = "d41d8cd98f00b204e9800998ecf8427e" := by decide

lemma md5_check_abc : md5Hexdigest "abc" = "900150983cd24fb0d6963f7d28e17f72" := by decide

lemma md5_check_fastbi : md5Hexdigest "fastbi-demo-main" = "98d66ba278506879fa0d03dc5997f72a" := by
  decide

lemma sanitize_check_demo : sanitize_k8s_name "Fastbi Demo!" = "fastbi-demo" := by decide

lemma resource_name_check_demo : k8s_resource_name "Fastbi Demo!" (some "main") = "dbt-fastbi-demo-98d66ba2" := by
  decide

lemma volume_name_check_demo : get_volume_name "dbt-server-nginx-proxy" "dbt-fastbi-demo-98d66ba2" =
    "dbt-server-nginx-proxy-dbt-fastbi-demo-98d66ba2" := by decide

lemma string_mk_length (l : List Char) : (String.mk l).length = l.length := rfl

lemma pySlice_length_le (s : String) (n : Int) (h : 0 ≤ n) :
    (pySlice s n).length ≤ n.toNat := by
  unfold pySlice
  rw [if_pos h]
  show (s.data.take n.toNat).length ≤ n.toNat
  rw [List.length_take]
  exact min_le_left _ _

lemma dbt_concat_length_le (x y : String) (hx : x.length ≤ 49) (hy : y.length ≤ 8) :
    ("dbt-" ++ x ++ "-" ++ y).length ≤ 63 := by
  rw [String.length_append, String.length_append, String.length_append]
  have h4 : ("dbt-" : String).length = 4 := rfl
  have h1 : ("-" : String).length = 1 := rfl
  omega

/-! ## Claims about the identifier deriver -/

/-- C2: for all inputs, the connection-identifier derivation returns
exactly the same string as the resource-name derivation. -/
theorem connection_id_eq_resource_name (project_name : String) (git_branch : Option String) :
    airflow_connection_id project_name git_branch =
      k8s_resource_name project_name git_branch := rfl

/-- C3: the resource-name derivation is deterministic (identical inputs
give identical outputs) and its output never exceeds 63 characters. -/
theorem resource_name_deterministic_and_bounded (project_name : String)
    (git_branch : Option String) :
    k8s_resource_name project_name git_branch = k8s_resource_name project_name git_branch ∧
    (k8s_resource_name project_name git_branch).length ≤ 63 := by
  refine ⟨rfl, ?_⟩
  simp only [k8s_resource_name]
  apply dbt_concat_length_le
  · split
    · exact le_trans (pySlice_length_le _ 49 (by norm_num)) (by norm_num)
    · omega
  · exact le_trans (pySlice_length_le _ 8 (by norm_num)) (by norm_num)

/-- C9: for project name "Fastbi Demo!" with branch "main", the
sanitized base is "fastbi-demo" and the derived resource name matches
`dbt-fastbi-demo-[0-9a-f]{8}` with length at most 63. -/
theorem fastbi_demo_scenario :
    sanitize_k8s_name "Fastbi Demo!" = "fastbi-demo" ∧
    matchesDbtFastbiDemoPattern (k8s_resource_name "Fastbi Demo!" (some "main")) = true ∧
    (k8s_resource_name "Fastbi Demo!" (some "main")).length ≤ 63 := by decide

/-! ## Claims about the volume-name derivation -/

/-- C4 counterexample: with a 63-character prefix the volume name is 64
characters long, so the bound does not hold for every pair of
strings (Python's negative slice bound removes characters from the end
instead of emptying the name). -/
theorem volume_name_length_counterexample :
    ¬ ((get_volume_name longPfx "x").length ≤ 63) := by decide

/-- C4 amended: whenever the prefix fits the 63-character budget
(length at most 62), the volume name is at most 63 characters and is
the prefix, a hyphen, and a left-prefix of the name (truncation removes
characters only from the right of the name, never from the prefix). -/
theorem volume_name_bounded_of_short_pfx (pfx nm : String) (h : pfx.length ≤ 62) :
    (get_volume_name pfx nm).length ≤ 63 ∧
    ∃ n, get_volume_name pfx nm = pfx ++ "-" ++ String.mk (nm.data.take n) := by
  simp only [get_volume_name]
  split
  · next hc =>
    have h0 : (0 : Int) ≤ 63 - (pfx.length : Int) - 1 := by omega
    constructor
    · rw [String.length_append, String.length_append]
      have hs : (pySlice nm (63 - (pfx.length : Int) - 1)).length ≤
          ((63 : Int) - (pfx.length : Int) - 1).toNat := pySlice_length_le _ _ h0
      have h1 : ("-" : String).length = 1 := rfl
      omega
    · refine ⟨((63 : Int) - (pfx.length : Int) - 1).toNat, ?_⟩
      unfold pySlice
      rw [if_pos h0]
  · next hc =>
    constructor
    · rw [String.length_append, String.length_append]
      have h1 : ("-" : String).length = 1 := rfl
      omega
    · refine ⟨nm.length, ?_⟩
      have ht : nm.data.take nm.length = nm.data := List.take_length nm.data
      rw [ht]

/-- C4 witness: the amended statement at a concrete pair. -/
theorem volume_name_bounded_witness :
    (get_volume_name "dbt-server-nginx-proxy" "dbt-fastbi-demo-98d66ba2").length ≤ 63 ∧
    ∃ n, get_volume_name "dbt-server-nginx-proxy" "dbt-fastbi-demo-98d66ba2" =
      "dbt-server-nginx-proxy" ++ "-" ++
        String.mk ("dbt-fastbi-demo-98d66ba2".data.take n) :=
  volume_name_bounded_of_short_pfx "dbt-server-nginx-proxy" "dbt-fastbi-demo-98d66ba2"
    (by decide)

/-! ## Claims about the release status query -/

/-- C5 counterexample: when the release is absent the status query
returns Python `None`, not the string "not found"; when the tool errors
it also returns `None`, not the string "unknown". -/
theorem helm_status_strings_counterexample :
    get_helm_status envHelmAbsent "dbt-x" "dbt-server" = none ∧
    get_helm_status envHelmAbsent "dbt-x" "dbt-server" ≠ some "not found" ∧
    get_helm_status envHelmErr "dbt-x" "dbt-server" = none ∧
    get_helm_status envHelmErr "dbt-x" "dbt-server" ≠ some "unknown" := by decide

/-- C5 amended: the status query returns the tool's stdout when the
release is listed and the tool succeeds, and returns `None` (no status
string at all) both when the release is absent from the listing and
when the tool errors. -/
theorem helm_status_return_values (env : HelmEnv) (r ns : String) :
    ((∀ x ∈ get_helm_releases env ns, x.name ≠ r) → get_helm_status env r ns = none) ∧
    ((∃ x ∈ get_helm_releases env ns, x.name = r) → (env.helmStatus r ns).exitCode ≠ 0 →
      get_helm_status env r ns = none) ∧
    ((∃ x ∈ get_helm_releases env ns, x.name = r) → (env.helmStatus r ns).exitCode = 0 →
      get_helm_status env r ns = some (env.helmStatus r ns).stdout) := by
  have hiff : (((get_helm_releases env ns).any fun x => x.name = r) = true) ↔
      ∃ x ∈ get_helm_releases env ns, x.name = r := by
    simp [List.any_eq_true]
  refine ⟨?_, ?_, ?_⟩
  · intro h
    unfold get_helm_status
    rw [if_neg]
    intro hmem
    rcases hiff.mp hmem with ⟨x, hx, hname⟩
    exact h x hx hname
  · intro h hne
    unfold get_helm_status
    rw [if_pos (hiff.mpr h), if_pos hne]
  · intro h heq
    unfold get_helm_status
    rw [if_pos (hiff.mpr h), if_neg (by simp [heq])]

/-- C5 witness: the amended statement on a concrete succeeding
environment. -/
theorem helm_status_return_values_witness :
    get_helm_status envHelmOk "dbt-x" "dbt-server" = some "STATUS: deployed" :=
  (helm_status_return_values envHelmOk "dbt-x" "dbt-server").2.2 (by decide) (by decide)

/-! ## Claim about the data-warehouse field synchronisation -/

/-- C7: the back-fill never reaches the loaded request.  With
`data_warehouse_platform` set to "bigquery" and `datawarehouse_type`
omitted, the loaded request keeps `datawarehouse_type = ""` (the
`@validates` hooks only mutate a dict obtained from the schema context,
which the routes never wire to the loaded payload), so the two fields
are not equal after validation. -/
theorem dw_fields_not_synced :
    (load_dw_fields ⟨some "bigquery", none⟩).1.datawarehouse_type = "" ∧
    (load_dw_fields ⟨some "bigquery", none⟩).1.data_warehouse_platform = "bigquery" ∧
    (load_dw_fields ⟨some "bigquery", none⟩).1.datawarehouse_type ≠
      (load_dw_fields ⟨some "bigquery", none⟩).1.data_warehouse_platform := by decide

/-! ## Claims about the delete workflow -/

lemma delete_releases_any_false (env : DeleteEnv) (id : String)
    (h : ∀ r ∈ get_helm_releases env.helm "dbt-server", r.name ≠ id) :
    ((get_helm_releases env.helm "dbt-server").any fun r => r.name = id) = false := by
  rw [List.any_eq_false]
  intro x hx
  simp [h x hx]

lemma delete_deployment_absent (env : DeleteEnv) (id : String)
    (h : ∀ r ∈ get_helm_releases env.helm "dbt-server", r.name ≠ id) :
    delete_deployment env id =
      ({ status := "error", httpCode := 404,
         message := "Deployment " ++ id ++ " not found in namespace " ++ "dbt-server",
         pvc_deleted := [], airflow_status := none, airflow_error := none },
       [DeleteCall.helmList "dbt-server"]) := by
  have hany := delete_releases_any_false env id h
  simp [delete_deployment, hany]

/-- C6: a delete request whose identifier is absent from the release
listing returns 404 and issues no mutation command (no uninstall, no
volume deletion) and no connection-deletion call. -/
theorem delete_absent_no_side_effects (env : DeleteEnv) (id : String)
    (h : ∀ r ∈ get_helm_releases env.helm "dbt-server", r.name ≠ id) :
    (delete_deployment env id).1.httpCode = 404 ∧
    (delete_deployment env id).1.status = "error" ∧
    ∀ c ∈ (delete_deployment env id).2,
      isMutationCall c = false ∧ isConnDeleteCall c = false := by
  rw [delete_deployment_absent env id h]
  refine ⟨rfl, rfl, ?_⟩
  intro c hc
  rw [List.mem_singleton] at hc
  subst hc
  exact ⟨rfl, rfl⟩

/-- C6 witness: the statement at a concrete environment with an empty
listing. -/
theorem delete_absent_no_side_effects_witness :
    (delete_deployment envDelAbsent "dbt-foo").1.httpCode = 404 ∧
    (delete_deployment envDelAbsent "dbt-foo").1.status = "error" ∧
    ∀ c ∈ (delete_deployment envDelAbsent "dbt-foo").2,
      isMutationCall c = false ∧ isConnDeleteCall c = false :=
  delete_absent_no_side_effects envDelAbsent "dbt-foo" (by decide)

lemma deleteConnCalls_no_ns (env : DeleteEnv) (k : String) :
    ∀ c ∈ deleteConnCalls env k, deleteCallNamespace c = none := by
  intro c hc
  unfold deleteConnCalls at hc
  rcases hg : env.getConn with _ | ⟨code, m⟩ | m
  · rw [hg] at hc
    simp only [List.mem_cons, List.not_mem_nil, or_false] at hc
    rcases hc with h | h <;> subst h <;> rfl
  · rw [hg] at hc
    rw [List.mem_singleton] at hc
    subst hc
    rfl
  · rw [hg] at hc
    rw [List.mem_singleton] at hc
    subst hc
    rfl

/-- C10: every cluster-facing call of the delete workflow is issued
against the fixed namespace "dbt-server" (the remote-orchestrator calls
carry no namespace), and a release that is absent from the "dbt-server"
listing — even one present in a different namespace — yields the
not-found result. -/
theorem delete_fixed_namespace (env : DeleteEnv) (id ns2 : String) :
    (∀ c ∈ (delete_deployment env id).2,
      deleteCallNamespace c = some "dbt-server" ∨ deleteCallNamespace c = none) ∧
    ((∃ r ∈ get_helm_releases env.helm ns2, r.name = id) → ns2 ≠ "dbt-server" →
      (∀ r ∈ get_helm_releases env.helm "dbt-server", r.name ≠ id) →
      (delete_deployment env id).1.httpCode = 404 ∧
      (delete_deployment env id).1.status = "error") := by
  constructor
  · intro c hc
    simp only [delete_deployment] at hc
    split at hc
    · rw [List.mem_singleton] at hc
      subst hc
      left
      rfl
    · split at hc
      · simp only [List.mem_cons, List.not_mem_nil, or_false] at hc
        rcases hc with h | h <;> subst h <;> (left ; rfl)
      · rcases hp : env.pvcList with _ | pvcs <;> rw [hp] at hc <;>
          simp only [List.mem_append, List.mem_cons, List.mem_map,
            List.not_mem_nil, or_false, List.mem_singleton] at hc
        · rcases hc with ((h | h) | h) | h
          · subst h; left; rfl
          · subst h; left; rfl
          · subst h; left; rfl
          · exact Or.inr (deleteConnCalls_no_ns env id c h)
        · rcases hc with ((h | h) | h | ⟨p, hp2, h⟩) | h
          · subst h; left; rfl
          · subst h; left; rfl
          · subst h; left; rfl
          · subst h; left; rfl
          · exact Or.inr (deleteConnCalls_no_ns env id c h)
  · intro _ _ h
    rw [delete_deployment_absent env id h]
    exact ⟨rfl, rfl⟩

/-- C10 witness: the statement at a concrete environment where the
release lives only in a different namespace. -/
theorem delete_fixed_namespace_witness :
    (∀ c ∈ (delete_deployment envDelOtherNs "dbt-foo").2,
      deleteCallNamespace c = some "dbt-server" ∨ deleteCallNamespace c = none) ∧
    (delete_deployment envDelOtherNs "dbt-foo").1.httpCode = 404 ∧
    (delete_deployment envDelOtherNs "dbt-foo").1.status = "error" := by
  have h := delete_fixed_namespace envDelOtherNs "dbt-foo" "other-ns"
  refine ⟨h.1, h.2 (by decide) (by decide) (by decide)⟩

/-! ## Claims about the create-or-update workflow -/

/-- C1: contrary to the spec, when the release apply succeeds but the
connection upsert fails with a non-404 HTTP error, the handler
re-raises, so the endpoint returns an error response (HTTP 500) with no
`airflow_connection` detail — not a "success" response with the
connection sub-status "error". -/
theorem conn_error_yields_error_response :
    (deploy_dbt_server envConnError reqDemo).1.status = "error" ∧
    (deploy_dbt_server envConnError reqDemo).1.httpCode = 500 ∧
    (deploy_dbt_server envConnError reqDemo).1.status ≠ "success" ∧
    (deploy_dbt_server envConnError reqDemo).1.airflow_connection = none := by decide

/-- C8: whenever the create-or-update operation reports success, the
connection record's endpoint is the HTTPS pattern
`https://dbt-server-<name>.<customer>.<domain>/invocations` when the
HTTPS flag is set and the cluster-local pattern
`http://dbt-server-<name>.<namespace>.svc.cluster.local/invocations`
otherwise, with `<name>` the derived canonical resource name (which is
also the connection identifier). -/
theorem deploy_endpoint_pattern (env : DeployEnv) (req : DeployRequest)
    (h : (deploy_dbt_server env req).1.status = "success") :
    ((deploy_dbt_server env req).1.airflow_connection.map fun c => (c.id, c.host)) =
      some (k8s_resource_name req.project_name req.git_branch,
        if req.https_enabled then
          "https://dbt-server-" ++ k8s_resource_name req.project_name req.git_branch ++
            "." ++ req.customer ++ "." ++ req.domain ++ "/invocations"
        else
          "http://dbt-server-" ++ k8s_resource_name req.project_name req.git_branch ++
            "." ++ req.ns ++ ".svc.cluster.local/invocations") := by
  simp only [deploy_dbt_server] at h ⊢
  revert h
  rcases env.renderError with _ | e
  · rcases env.repoSetupError with _ | e2
    · by_cases hup : env.upgrade.exitCode ≠ 0
      · rw [if_pos hup]
        intro h
        simp at h
      · rw [if_neg hup]
        rcases deployConnResult env with m | st
        · intro h
          simp at h
        · intro _
          rfl
    · intro h
      simp at h
  · intro h
    simp at h

/-- C8 witness: the endpoint pattern at a concrete succeeding run. -/
theorem deploy_endpoint_pattern_witness :
    ((deploy_dbt_server envAllOk reqDemo).1.airflow_connection.map fun c => (c.id, c.host)) =
      some (k8s_resource_name reqDemo.project_name reqDemo.git_branch,
        if reqDemo.https_enabled then
          "https://dbt-server-" ++ k8s_resource_name reqDemo.project_name reqDemo.git_branch ++
            "." ++ reqDemo.customer ++ "." ++ reqDemo.domain ++ "/invocations"
        else
          "http://dbt-server-" ++ k8s_resource_name reqDemo.project_name reqDemo.git_branch ++
            "." ++ reqDemo.ns ++ ".svc.cluster.local/invocations") :=
  deploy_endpoint_pattern envAllOk reqDemo (by decide)
